import Mathlib

/-!
Verification of `modAL/acquisition.py` (acquisition functions for Bayesian
optimization): a shallow embedding of the numpy-based code into Lean, with
theorems checking the natural-language specification against it.

Scalars are modelled as real numbers.  Numpy 1-D/2-D arrays are modelled by
`Arr`, with numpy's broadcasting rules implemented by `bmap2`; a failed
broadcast (numpy `ValueError`) is `none`.  `scipy.special.ndtr` is the
standard normal cumulative distribution function and `scipy.stats.norm.pdf`
the standard normal density, both taken from Mathlib's Gaussian development.
-/

open MeasureTheory

/-- A numpy array of rank 1 (`vec`) or rank 2 (`mat cols rows`).  A rank-2
array carries its column count so that empty matrices keep their shape. -/
inductive Arr where
  | vec : List ℝ → Arr
  | mat : Nat → List (List ℝ) → Arr

/-- The numpy shape of an array: `[n]` for rank 1, `[rows, cols]` for rank 2. -/
def Arr.shape : Arr → List Nat
  | Arr.vec a => [a.length]
  | Arr.mat c rows => [rows.length, c]

/-- Well-formedness of an `Arr`: every row of a matrix has the declared
column count. -/
def Arr.wf : Arr → Prop
  | Arr.vec _ => True
  | Arr.mat c rows => ∀ r ∈ rows, r.length = c

/-- Broadcast of a single numpy dimension: equal dimensions stay, a dimension
of 1 stretches to the other, anything else is a broadcast error. -/
def bcDim (n m : Nat) : Option Nat :=
  if n = m then some n else if n = 1 then some m else if m = 1 then some n else none

/-- Index into a (possibly stretched) broadcast dimension: a length-1 axis is
always read at position 0. -/
def idx1 (len j : Nat) : Nat := if len = 1 then 0 else j

/-- Elementwise binary operation with numpy broadcasting between rank-1 and
rank-2 arrays.  A rank-1 array of length `n` participates as shape `(1, n)`
against a rank-2 array, exactly as in numpy; incompatible shapes give `none`
(numpy raises `ValueError`). -/
def bmap2 (f : ℝ → ℝ → ℝ) : Arr → Arr → Option Arr
  | Arr.vec a, Arr.vec b =>
      (bcDim a.length b.length).map fun n =>
        Arr.vec ((List.range n).map fun j =>
          f (a.getD (idx1 a.length j) 0) (b.getD (idx1 b.length j) 0))
  | Arr.vec a, Arr.mat c B =>
      (bcDim a.length c).map fun n =>
        Arr.mat n ((List.range B.length).map fun i =>
          (List.range n).map fun j =>
            f (a.getD (idx1 a.length j) 0) ((B.getD i []).getD (idx1 c j) 0))
  | Arr.mat c A, Arr.vec b =>
      (bcDim c b.length).map fun n =>
        Arr.mat n ((List.range A.length).map fun i =>
          (List.range n).map fun j =>
            f ((A.getD i []).getD (idx1 c j) 0) (b.getD (idx1 b.length j) 0))
  | Arr.mat c A, Arr.mat d B => do
      let rows ← bcDim A.length B.length
      let cols ← bcDim c d
      pure (Arr.mat cols ((List.range rows).map fun i =>
        (List.range cols).map fun j =>
          f ((A.getD (idx1 A.length i) []).getD (idx1 c j) 0)
            ((B.getD (idx1 B.length i) []).getD (idx1 d j) 0)))

/-- Elementwise unary operation (numpy ufunc applied to an array, or an
array-scalar operation). -/
def smap (f : ℝ → ℝ) : Arr → Arr
  | Arr.vec a => Arr.vec (a.map f)
  | Arr.mat c A => Arr.mat c (A.map (List.map f))

/-- `std.reshape(-1, 1)`: a length-`n` rank-1 array becomes an `n`-by-1
column. -/
def reshapeCol (a : List ℝ) : Arr := Arr.mat 1 (a.map fun x => [x])

/-- `scipy.stats.norm.pdf`: the standard normal probability density. -/
noncomputable def normPdf (x : ℝ) : ℝ := ProbabilityTheory.gaussianPDFReal 0 1 x

/-- `scipy.special.ndtr`: the standard normal cumulative distribution
function, the integral of the density up to `x`. -/
noncomputable def ndtr (x : ℝ) : ℝ := ∫ t in Set.Iic x, normPdf t

/-- `PI(mean, std, max_val, tradeoff)` of the source, on arrays:
`ndtr((mean - max_val - tradeoff)/std)`. -/
noncomputable def PI (mean std : Arr) (max_val tradeoff : ℝ) : Option Arr :=
  (bmap2 (· / ·) (smap (fun m => m - max_val - tradeoff) mean) std).map (smap ndtr)

/-- `EI(mean, std, max_val, tradeoff)` of the source, on arrays:
`z = (mean - max_val - tradeoff)/std`;
`(mean - max_val - tradeoff)*ndtr(z) + std*norm.pdf(z)`. -/
noncomputable def EI (mean std : Arr) (max_val tradeoff : ℝ) : Option Arr := do
  let z ← bmap2 (· / ·) (smap (fun m => m - max_val - tradeoff) mean) std
  let a ← bmap2 (· * ·) (smap (fun m => m - max_val - tradeoff) mean) (smap ndtr z)
  let b ← bmap2 (· * ·) std (smap normPdf z)
  bmap2 (· + ·) a b

/-- `UCB(mean, std, beta)` of the source, on arrays: `mean + beta*std`. -/
def UCB (mean std : Arr) (beta : ℝ) : Option Arr :=
  bmap2 (· + ·) mean (smap (fun s => beta * s) std)

/-- The scalar form of `PI` (the formula is elementwise). -/
noncomputable def PIscalar (mean std max_val tradeoff : ℝ) : ℝ :=
  ndtr ((mean - max_val - tradeoff) / std)

/-- The scalar form of `EI` (the formula is elementwise). -/
noncomputable def EIscalar (mean std max_val tradeoff : ℝ) : ℝ :=
  let z := (mean - max_val - tradeoff) / std
  (mean - max_val - tradeoff) * ndtr z + std * normPdf z

/-- The scalar form of `UCB` (the formula is elementwise). -/
def UCBscalar (mean std beta : ℝ) : ℝ := mean + beta * std

/-- The surrogate model interface used by the adapters: `predict` returns a
pair of a mean sequence and an uncertainty sequence for a candidate batch,
and `y_max` is the best observed target value. -/
structure BayesianEstimator where
  predict : List (List ℝ) → List ℝ × List ℝ
  y_max : ℝ

open scoped Classical in
/-- Indices of the `k` highest entries of a score vector, highest first,
ties broken lowest-index-first. -/
noncomputable def topk (v : List ℝ) (k : Nat) : List Nat :=
  ((List.range v.length).mergeSort fun i j =>
    decide (v.getD j 0 < v.getD i 0 ∨ (v.getD i 0 = v.getD j 0 ∧ i ≤ j))).take k

/-- Modelled from the spec: `multi_argmax` from `modAL.utils.selection` (the
external top-k Selector) is imported by the source but its code is not among
the provided files.  Per the spec it takes a score vector and a count
`n_instances` and returns the indices of the `n_instances` highest-scoring
entries, deterministically, with a fixed lowest-index-first tie-break;
`n_instances` must not exceed the number of scores and the scores must be a
one-dimensional vector (anything else is a precondition violation, `none`). -/
noncomputable def multi_argmax (values : Arr) (n_instances : Nat) : Option (List Nat) :=
  match values with
  | Arr.mat _ _ => none
  | Arr.vec v => if n_instances ≤ v.length then some (topk v n_instances) else none

/-- `optimizer_PI` of the source: predict mean and std, reshape std to a
column, apply `PI` with the optimizer's `y_max`. -/
noncomputable def optimizer_PI (optimizer : BayesianEstimator) (X : List (List ℝ))
    (tradeoff : ℝ) : Option Arr :=
  let p := optimizer.predict X
  PI (Arr.vec p.1) (reshapeCol p.2) optimizer.y_max tradeoff

/-- `optimizer_EI` of the source: predict mean and std, reshape std to a
column, apply `EI` with the optimizer's `y_max`. -/
noncomputable def optimizer_EI (optimizer : BayesianEstimator) (X : List (List ℝ))
    (tradeoff : ℝ) : Option Arr :=
  let p := optimizer.predict X
  EI (Arr.vec p.1) (reshapeCol p.2) optimizer.y_max tradeoff

/-- `optimizer_UCB` of the source: predict mean and std, reshape std to a
column, apply `UCB`. -/
def optimizer_UCB (optimizer : BayesianEstimator) (X : List (List ℝ))
    (beta : ℝ) : Option Arr :=
  let p := optimizer.predict X
  UCB (Arr.vec p.1) (reshapeCol p.2) beta

/-- `X[query_idx]`: the rows of the candidate batch at the given indices, in
order. -/
def gatherRows (X : List (List ℝ)) (idxs : List Nat) : List (List ℝ) :=
  idxs.map fun i => X.getD i []

/-- `max_PI` of the source: score by `optimizer_PI`, select by
`multi_argmax`, return `(query_idx, X[query_idx])`. -/
noncomputable def max_PI (optimizer : BayesianEstimator) (X : List (List ℝ))
    (tradeoff : ℝ) (n_instances : Nat) : Option (List Nat × List (List ℝ)) := do
  let pi ← optimizer_PI optimizer X tradeoff
  let query_idx ← multi_argmax pi n_instances
  pure (query_idx, gatherRows X query_idx)

/-- `max_EI` of the source: score by `optimizer_EI`, select by
`multi_argmax`, return `(query_idx, X[query_idx])`. -/
noncomputable def max_EI (optimizer : BayesianEstimator) (X : List (List ℝ))
    (tradeoff : ℝ) (n_instances : Nat) : Option (List Nat × List (List ℝ)) := do
  let ei ← optimizer_EI optimizer X tradeoff
  let query_idx ← multi_argmax ei n_instances
  pure (query_idx, gatherRows X query_idx)

/-- `max_UCB` of the source: score by `optimizer_UCB`, select by
`multi_argmax`, return `(query_idx, X[query_idx])`. -/
noncomputable def max_UCB (optimizer : BayesianEstimator) (X : List (List ℝ))
    (beta : ℝ) (n_instances : Nat) : Option (List Nat × List (List ℝ)) := do
  let ucb ← optimizer_UCB optimizer X beta
  let query_idx ← multi_argmax ucb n_instances
  pure (query_idx, gatherRows X query_idx)

/-- A surrogate honouring its contract on a 2-row batch: mean `[0, 1]`,
std `[1, 1]`, best observed value `0`. -/
def twoRowEstimator : BayesianEstimator :=
  ⟨fun _ => ([0, 1], [1, 1]), 0⟩

/-- A misbehaving surrogate returning 2 means but 3 uncertainties. -/
def mismatchEstimator : BayesianEstimator :=
  ⟨fun _ => ([0, 1], [1, 1, 1]), 0⟩

/-- A surrogate reporting an exactly-zero uncertainty. -/
def zeroStdEstimator : BayesianEstimator :=
  ⟨fun _ => ([1], [0]), 0⟩

/-- The spec's concrete EI scenario: mean `[1, 2, 0.5]`, std
`[0.1, 0.1, 0.1]`, best observed value `1.5`. -/
def eiScenarioEstimator : BayesianEstimator :=
  ⟨fun _ => ([1, 2, 0.5], [0.1, 0.1, 0.1]), 1.5⟩

/-- A 2-row candidate batch. -/
def twoRowBatch : List (List ℝ) := [[0], [1]]

/-- A 3-row candidate batch. -/
def threeRowBatch : List (List ℝ) := [[0], [1], [2]]

/-- A 1-row candidate batch. -/
def oneRowBatch : List (List ℝ) := [[0]]

/-!
Helper lemmas about the embedded density, CDF and broadcasting.
-/

open ProbabilityTheory in
theorem normPdf_nonneg (t : ℝ) : 0 ≤ normPdf t := gaussianPDFReal_nonneg 0 1 t

open ProbabilityTheory in
theorem integrable_normPdf : Integrable normPdf := integrable_gaussianPDFReal 0 1

theorem ndtr_nonneg (x : ℝ) : 0 ≤ ndtr x :=
  setIntegral_nonneg measurableSet_Iic fun t _ => normPdf_nonneg t

open ProbabilityTheory in
theorem ndtr_le_one (x : ℝ) : ndtr x ≤ 1 := by
  unfold ndtr
  calc ∫ t in Set.Iic x, normPdf t ≤ ∫ t, normPdf t :=
    setIntegral_le_integral integrable_normPdf (ae_of_all _ fun t => normPdf_nonneg t)
  _ = 1 := by
    unfold normPdf
    exact integral_gaussianPDFReal_eq_one 0 one_ne_zero

theorem normPdf_eq (t : ℝ) :
    normPdf t = (Real.sqrt (2 * Real.pi))⁻¹ * Real.exp (-(t ^ 2) / 2) := by
  unfold normPdf ProbabilityTheory.gaussianPDFReal
  norm_num

theorem hasDerivAt_neg_normPdf (t : ℝ) :
    HasDerivAt (fun u => -normPdf u) (t * normPdf t) t := by
  have h1 : HasDerivAt (fun u : ℝ => -(u ^ 2) / 2) (-t) t := by
    have h := (hasDerivAt_pow 2 t).neg.div_const 2
    convert h using 1
    ring
  have h3 := (h1.exp.const_mul ((Real.sqrt (2 * Real.pi))⁻¹)).neg
  have he : (fun u => -((Real.sqrt (2 * Real.pi))⁻¹ * Real.exp (-(u ^ 2) / 2)))
      = fun u => -normPdf u := by
    funext u
    rw [normPdf_eq]
  rw [he] at h3
  convert h3 using 1
  rw [normPdf_eq]
  ring

theorem integrable_mul_normPdf : Integrable (fun t => t * normPdf t) := by
  have h := (@integrable_mul_exp_neg_mul_sq ((1:ℝ)/2) (by norm_num)).const_mul
    ((Real.sqrt (2 * Real.pi))⁻¹)
  have he : (fun x : ℝ => (Real.sqrt (2 * Real.pi))⁻¹ * (x * Real.exp (-(1/2) * x ^ 2)))
      = fun t => t * normPdf t := by
    funext x
    rw [normPdf_eq]
    rw [show -(1/2 : ℝ) * x ^ 2 = -(x ^ 2) / 2 by ring]
    ring
  rwa [he] at h

theorem tendsto_neg_normPdf_atBot :
    Filter.Tendsto (fun t => -normPdf t) Filter.atBot (nhds 0) := by
  have hsq : Filter.Tendsto (fun t : ℝ => t ^ 2) Filter.atBot Filter.atTop := by
    have hp : Filter.Tendsto (fun x : ℝ => x ^ 2) Filter.atTop Filter.atTop :=
      Filter.tendsto_pow_atTop (by norm_num)
    have h := hp.comp Filter.tendsto_neg_atBot_atTop
    have he : (fun t : ℝ => t ^ 2) = ((fun x : ℝ => x ^ 2) ∘ Neg.neg) := by
      funext u
      simp [Function.comp, neg_sq]
    rw [he]
    exact h
  have harg : Filter.Tendsto (fun t : ℝ => -(t ^ 2) / 2) Filter.atBot Filter.atBot := by
    have h2 : Filter.Tendsto (fun t : ℝ => t ^ 2 / 2) Filter.atBot Filter.atTop :=
      hsq.atTop_div_const (by norm_num)
    have h3 := Filter.tendsto_neg_atTop_atBot.comp h2
    have he : (fun t : ℝ => -(t ^ 2) / 2) = (Neg.neg ∘ fun t : ℝ => t ^ 2 / 2) := by
      funext u
      simp [Function.comp]
      ring
    rw [he]
    exact h3
  have hexp := Real.tendsto_exp_atBot.comp harg
  have hc := hexp.const_mul ((Real.sqrt (2 * Real.pi))⁻¹)
  have he : (fun t : ℝ => (Real.sqrt (2 * Real.pi))⁻¹ * Real.exp (-(t ^ 2) / 2))
      = normPdf := by
    funext t
    rw [normPdf_eq]
  rw [Function.comp_def] at hc
  rw [he] at hc
  simpa using hc.neg

theorem integral_Iic_mul_normPdf (z : ℝ) :
    ∫ t in Set.Iic z, t * normPdf t = -normPdf z := by
  have h := integral_Iic_of_hasDerivAt_of_tendsto'
    (fun x (_ : x ∈ Set.Iic z) => hasDerivAt_neg_normPdf x)
    integrable_mul_normPdf.integrableOn tendsto_neg_normPdf_atBot
  simpa using h

/-- The Mills-type inequality behind nonnegativity of expected improvement:
`z * Φ(z) + φ(z) = ∫ t ≤ z, (z - t) φ(t) dt ≥ 0`. -/
theorem mills_nonneg (z : ℝ) : 0 ≤ z * ndtr z + normPdf z := by
  have hintc : IntegrableOn (fun t => z * normPdf t) (Set.Iic z) :=
    (integrable_normPdf.const_mul z).integrableOn
  have h1 : ∫ t in Set.Iic z, z * normPdf t = z * ndtr z := by
    unfold ndtr
    exact integral_mul_left z normPdf
  have h0 : 0 ≤ ∫ t in Set.Iic z, (z - t) * normPdf t :=
    setIntegral_nonneg measurableSet_Iic fun t ht =>
      mul_nonneg (sub_nonneg.mpr ht) (normPdf_nonneg t)
  have h2 : ∫ t in Set.Iic z, (z - t) * normPdf t
      = (∫ t in Set.Iic z, z * normPdf t) - ∫ t in Set.Iic z, t * normPdf t := by
    rw [← integral_sub hintc integrable_mul_normPdf.integrableOn]
    congr 1
    funext t
    ring
  rw [h2, h1, integral_Iic_mul_normPdf] at h0
  linarith

theorem idx1_of_lt {n j : Nat} (h : j < n) : idx1 n j = j := by
  unfold idx1
  split
  · omega
  · rfl

/-- On two plain score vectors of equal length, `PI` is the elementwise
normal CDF of the normalized improvement margin. -/
theorem pi_vec (mean std : List ℝ) (v t : ℝ) (h : mean.length = std.length) :
    PI (Arr.vec mean) (Arr.vec std) v t =
      some (Arr.vec ((List.range mean.length).map fun j =>
        ndtr ((mean.getD j 0 - v - t) / std.getD j 0))) := by
  have hb : bcDim (mean.map fun m => m - v - t).length std.length = some mean.length := by
    simp [bcDim, h]
  simp only [PI, smap, bmap2, hb, Option.map_some']
  refine congrArg _ (congrArg _ ?_)
  apply List.ext_getElem
  · simp
  · intro i h1 h2
    have hi : i < mean.length := by simpa using h2
    have hs : i < std.length := h ▸ hi
    simp only [List.getElem_map, List.getElem_range, List.length_map, idx1_of_lt hi,
      idx1_of_lt hs, List.getD_eq_getElem?_getD, List.getElem?_map,
      List.getElem?_eq_getElem hi, List.getElem?_eq_getElem hs]
    simp

/-!
Claim theorems.
-/

/-- C1: the claim says each surrogate adapter returns a score vector of
length `n` for an `n`-row batch.  It does not: with a contract-honouring
surrogate on a 2-row batch (flat mean `[0, 1]`, std `[1, 1]`), the
`std.reshape(-1, 1)` step makes every adapter broadcast the `(2,)` mean
against a `(2, 1)` column and return a `(2, 2)` matrix, contradicting the
adapters' own docstrings (shape `(n_samples,)`). -/
theorem C1_adapters_return_square_matrix_not_vector :
    (optimizer_PI twoRowEstimator twoRowBatch 0).map Arr.shape = some [2, 2] ∧
    (optimizer_EI twoRowEstimator twoRowBatch 0).map Arr.shape = some [2, 2] ∧
    (optimizer_UCB twoRowEstimator twoRowBatch 1).map Arr.shape = some [2, 2] := by
  refine ⟨?_, ?_, ?_⟩ <;>
    simp [optimizer_PI, optimizer_EI, optimizer_UCB, twoRowEstimator, twoRowBatch,
      PI, EI, UCB, bmap2, smap, reshapeCol, bcDim, Arr.shape]

/-- C2: the claim says a zero uncertainty must raise a designated
precondition-violation error before any score is produced.  The code has no
such check: with `std = [0]` both scoring adapters still produce a score
array (the division by zero is performed and handed to `ndtr`), so no
designated error interrupts scoring. -/
theorem C2_zero_std_scores_without_designated_error :
    (optimizer_PI zeroStdEstimator oneRowBatch 0).isSome = true ∧
    (optimizer_EI zeroStdEstimator oneRowBatch 0).isSome = true := by
  constructor <;>
    simp [optimizer_PI, optimizer_EI, zeroStdEstimator, oneRowBatch,
      PI, EI, bmap2, smap, reshapeCol, bcDim]

/-- C3: the claim says a mean/uncertainty shape mismatch must fail fast.
It does not: with 2 means and 3 uncertainties the adapters silently
broadcast the `(2,)` mean against the reshaped `(3, 1)` column and return a
`(3, 2)` score matrix instead of an error. -/
theorem C3_shape_mismatch_silently_broadcasts :
    (optimizer_PI mismatchEstimator twoRowBatch 0).map Arr.shape = some [3, 2] ∧
    (optimizer_EI mismatchEstimator twoRowBatch 0).map Arr.shape = some [3, 2] := by
  constructor <;>
    simp [optimizer_PI, optimizer_EI, mismatchEstimator, twoRowBatch,
      PI, EI, bmap2, smap, reshapeCol, bcDim, Arr.shape]

/-- C4: on equal-length mean/std vectors with positive std, `PI` returns
elementwise `Φ((mean - max_val - tradeoff)/std)` with `Φ` the standard
normal CDF, and every returned score lies in `[0, 1]`. -/
theorem C4_PI_is_normal_cdf_and_in_unit_interval (mean std : List ℝ) (v t : ℝ)
    (hlen : mean.length = std.length) (hstd : ∀ s ∈ std, 0 < s) :
    PI (Arr.vec mean) (Arr.vec std) v t =
      some (Arr.vec ((List.range mean.length).map fun j =>
        ndtr ((mean.getD j 0 - v - t) / std.getD j 0))) ∧
    ∀ x ∈ (List.range mean.length).map fun j =>
        ndtr ((mean.getD j 0 - v - t) / std.getD j 0), 0 ≤ x ∧ x ≤ 1 := by
  refine ⟨pi_vec mean std v t hlen, ?_⟩
  intro x hx
  obtain ⟨j, hj, rfl⟩ := List.mem_map.mp hx
  exact ⟨ndtr_nonneg _, ndtr_le_one _⟩

/-- Witness for C4 at mean `[1, 2]`, std `[1, 1]`, `max_val = 0`,
`tradeoff = 0`. -/
theorem C4_witness :
    ([1, 2] : List ℝ).length = ([1, 1] : List ℝ).length ∧
    (∀ s ∈ ([1, 1] : List ℝ), 0 < s) ∧
    (PI (Arr.vec [1, 2]) (Arr.vec [1, 1]) 0 0 =
      some (Arr.vec ((List.range ([1, 2] : List ℝ).length).map fun j =>
        ndtr ((([1, 2] : List ℝ).getD j 0 - 0 - 0) / ([1, 1] : List ℝ).getD j 0))) ∧
    ∀ x ∈ (List.range ([1, 2] : List ℝ).length).map fun j =>
        ndtr ((([1, 2] : List ℝ).getD j 0 - 0 - 0) / ([1, 1] : List ℝ).getD j 0),
      0 ≤ x ∧ x ≤ 1) :=
  ⟨rfl, by norm_num, C4_PI_is_normal_cdf_and_in_unit_interval [1, 2] [1, 1] 0 0 rfl
    (by norm_num)⟩

/-- C5: for positive std and `tradeoff = 0`, the (elementwise) expected
improvement `(mean - max_val)·Φ(z) + std·φ(z)` with
`z = (mean - max_val)/std` is nonnegative. -/
theorem C5_EI_nonneg_at_zero_tradeoff (mean max_val std : ℝ) (hstd : 0 < std) :
    0 ≤ EIscalar mean std max_val 0 := by
  have hs0 : std ≠ 0 := ne_of_gt hstd
  simp only [EIscalar]
  set z := (mean - max_val - 0) / std with hzdef
  have hmv : mean - max_val - 0 = std * z := by
    rw [hzdef]
    field_simp
  rw [hmv]
  have h2 : std * z * ndtr z + std * normPdf z = std * (z * ndtr z + normPdf z) := by ring
  rw [h2]
  exact mul_nonneg hstd.le (mills_nonneg z)

/-- Witness for C5 at mean `0`, `max_val = 0`, std `1`. -/
theorem C5_witness : (0:ℝ) < 1 ∧ 0 ≤ EIscalar 0 1 0 0 :=
  ⟨by norm_num, C5_EI_nonneg_at_zero_tradeoff 0 0 1 (by norm_num)⟩

/-- C6: on equal-length mean/std vectors, `UCB` with `beta = 0` returns
exactly the mean vector, unchanged. -/
theorem C6_UCB_beta_zero_returns_mean (mean std : List ℝ)
    (h : mean.length = std.length) :
    UCB (Arr.vec mean) (Arr.vec std) 0 = some (Arr.vec mean) := by
  have hb : bcDim mean.length (std.map fun s => (0:ℝ)*s).length = some mean.length := by
    simp [bcDim, h]
  simp only [UCB, smap, bmap2, hb, Option.map_some']
  refine congrArg _ (congrArg _ ?_)
  apply List.ext_getElem
  · simp
  · intro i h1 h2
    have hi : i < mean.length := by simpa using h2
    have hs : i < std.length := h ▸ hi
    simp only [List.getElem_map, List.getElem_range, List.length_map, idx1_of_lt hi,
      idx1_of_lt hs, List.getD_eq_getElem?_getD, List.getElem?_map,
      List.getElem?_eq_getElem hi, List.getElem?_eq_getElem hs]
    simp

/-- Witness for C6 at mean `[1, 2]`, std `[3, 4]`. -/
theorem C6_witness :
    ([1, 2] : List ℝ).length = ([3, 4] : List ℝ).length ∧
    UCB (Arr.vec [1, 2]) (Arr.vec [3, 4]) 0 = some (Arr.vec [1, 2]) :=
  ⟨rfl, C6_UCB_beta_zero_returns_mean [1, 2] [3, 4] rfl⟩

/-- C7: the claim says each query strategy returns exactly `n_instances`
distinct in-range indices.  None ever does: the score handed to the top-k
selector is an `(n, n)` matrix rather than a score vector (the reshape
defect of C1), so on a 2-row batch with `n_instances = 1` the pipeline
fails instead of returning one index. -/
theorem C7_query_strategies_fail_to_return_indices :
    max_PI twoRowEstimator twoRowBatch 0 1 = none ∧
    max_UCB twoRowEstimator twoRowBatch 1 1 = none := by
  constructor <;>
    simp [max_PI, max_UCB, optimizer_PI, optimizer_UCB, twoRowEstimator, twoRowBatch,
      PI, UCB, bmap2, smap, reshapeCol, bcDim, multi_argmax]

/-- C8: the claim describes the result `(query_idx, X[query_idx])` of a
successful query-strategy call, but no call succeeds: the selector always
receives an `(n, n)` score matrix, so `max_EI` on a well-behaved 2-row
batch already fails. -/
theorem C8_no_query_strategy_call_succeeds :
    max_EI twoRowEstimator twoRowBatch 0 1 = none := by
  simp [max_EI, optimizer_EI, twoRowEstimator, twoRowBatch,
    EI, bmap2, smap, reshapeCol, bcDim, multi_argmax]

/-- C9: in the spec's concrete scenario (mean `[1, 2, 0.5]`, std
`[0.1, 0.1, 0.1]`, best value `1.5`, `tradeoff = 0`, `n_instances = 1`)
the claim says `max_EI` returns index 1; instead the EI scores form a 3-by-3
matrix and the selection fails. -/
theorem C9_EI_scenario_does_not_select_index_one :
    max_EI eiScenarioEstimator threeRowBatch 0 1 = none := by
  simp [max_EI, optimizer_EI, eiScenarioEstimator, threeRowBatch,
    EI, bmap2, smap, reshapeCol, bcDim, multi_argmax]

/-- C10: elementwise, `EI = (mean - max_val - tradeoff) · PI + std · φ(z)`
with `z = (mean - max_val - tradeoff)/std`: expected improvement is
definable from probability of improvement plus a density term. -/
theorem C10_EI_decomposes_via_PI (mean std max_val tradeoff : ℝ) (hstd : 0 < std) :
    EIscalar mean std max_val tradeoff =
      (mean - max_val - tradeoff) * PIscalar mean std max_val tradeoff +
        std * normPdf ((mean - max_val - tradeoff) / std) := by
  simp only [EIscalar, PIscalar]

/-- Witness for C10 at mean `1`, std `2`, `max_val = 0`, `tradeoff = 0`. -/
theorem C10_witness :
    (0:ℝ) < 2 ∧
    EIscalar 1 2 0 0 = (1 - 0 - 0) * PIscalar 1 2 0 0 + 2 * normPdf ((1 - 0 - 0) / 2) :=
  ⟨by norm_num, C10_EI_decomposes_via_PI 1 2 0 0 (by norm_num)⟩
